import Mathlib

/-!
Shallow embedding of `src/cryptography/x509.py` (X.509 certificate model:
object identifiers, names, extensions, typed extension values, version
enumeration, signature-OID-to-hash table) together with the parts of the
extension-building protocol that the specification describes but whose code
lives in the decoding backend rather than in this module.

Conventions of the embedding:
- Python exceptions become an `X509Error` sum type returned through `Except`.
  The human-readable message strings of `DuplicateExtension`,
  `UnsupportedExtension`, `ExtensionNotFound` and `InvalidVersion` are
  abstracted away (only their structured payload — the offending OID or the
  raw parsed version — is kept); `TypeError` and `ValueError` keep their
  exact message text since nothing else distinguishes them.
- Python's dynamic typing, where a claim depends on it (the `isinstance`
  checks of `Extension.__init__`), is modelled by a small `PyVal` sum type
  of the runtime values that can reach those arguments.
- Python's process-wide string hash is modelled by Lean's `hash` on
  `String`; the only property used is that it is a function of the string.
-/

namespace X509

/-- From `ObjectIdentifier` (x509.py:131-153): an immutable wrapper around a
dotted-decimal string. -/
structure ObjectIdentifier where
  dotted_string : String
deriving DecidableEq, Repr

/-- `ObjectIdentifier.__eq__` (x509.py:135-139): structural equality on the
wrapped dotted string. -/
def ObjectIdentifier.eq (a b : ObjectIdentifier) : Bool :=
  a.dotted_string == b.dotted_string

/-- `ObjectIdentifier.__hash__` (x509.py:150-151): `hash(self.dotted_string)`,
the hash of the wrapped string. -/
def ObjectIdentifier.hashVal (a : ObjectIdentifier) : UInt64 :=
  hash a.dotted_string

/-- From `NameAttribute` (x509.py:102-128): an (OID, value) pair. -/
structure NameAttribute where
  oid : ObjectIdentifier
  value : String
deriving DecidableEq, Repr

/-- From `Name` (x509.py:156-176): an ordered sequence of attributes. -/
structure Name where
  attributes : List NameAttribute
deriving DecidableEq, Repr

/-- `Name.get_attributes_for_oid` (x509.py:160-161):
`[i for i in self if i.oid == oid]`. -/
def Name.get_attributes_for_oid (n : Name) (oid : ObjectIdentifier) :
    List NameAttribute :=
  n.attributes.filter (fun i => i.oid.eq oid)

/-- The error taxonomy: the exception classes of x509.py:78-99 plus Python's
built-in `TypeError`/`ValueError` and the backend's
unsupported-signature-algorithm condition (spec section 7). -/
inductive X509Error where
  | typeError (msg : String)
  | valueError (msg : String)
  | invalidVersion (parsed_version : Int)
  | duplicateExtension (oid : ObjectIdentifier)
  | unsupportedExtension (oid : ObjectIdentifier)
  | extensionNotFound (oid : ObjectIdentifier)
  | unsupportedSignatureAlgorithm
deriving DecidableEq, Repr

/-- Discriminator: is this error a Duplicate-Extension condition? -/
def X509Error.isDuplicateExtension : X509Error → Bool
  | .duplicateExtension _ => true
  | _ => false

/-- From `BasicConstraints` (x509.py:245-269): the stored fields.
`path_length` is `Option Int` (`None` or an integer). -/
structure BasicConstraints where
  ca : Bool
  path_length : Option Int
deriving DecidableEq, Repr

/-- `BasicConstraints.__init__` (x509.py:246-262). The `isinstance(ca, bool)`
check is absorbed by the type of `ca`; the `isinstance(path_length,
six.integer_types)` half of the third check is absorbed by `Option Int`,
leaving the non-negativity half. Check order follows the source:
ValueError for a non-None path_length with `ca` false fires before the
TypeError for a negative path_length. -/
def BasicConstraints.init (ca : Bool) (path_length : Option Int) :
    Except X509Error BasicConstraints :=
  if path_length.isSome && !ca then
    .error (.valueError "path_length must be None when ca is False")
  else if (match path_length with
           | some n => decide (n < 0)
           | none => false) then
    .error (.typeError "path_length must be a non-negative integer or None")
  else
    .ok ⟨ca, path_length⟩

/-- From `KeyUsage` (x509.py:272-316): the nine stored boolean bits. The
stored `_encipher_only`/`_decipher_only` slots carry an underscore-free
`raw` suffix because the public names are the guarded accessors below. -/
structure KeyUsage where
  digital_signature : Bool
  content_commitment : Bool
  key_encipherment : Bool
  data_encipherment : Bool
  key_agreement : Bool
  key_cert_sign : Bool
  crl_sign : Bool
  encipher_only_raw : Bool
  decipher_only_raw : Bool
deriving DecidableEq, Repr

/-- `KeyUsage.__init__` (x509.py:273-290): fails when `key_agreement` is
false while either of `encipher_only`/`decipher_only` is true. -/
def KeyUsage.init (digital_signature content_commitment key_encipherment
    data_encipherment key_agreement key_cert_sign crl_sign
    encipher_only decipher_only : Bool) : Except X509Error KeyUsage :=
  if !key_agreement && (encipher_only || decipher_only) then
    .error (.valueError
      "encipher_only and decipher_only can only be true when key_agreement is true")
  else
    .ok ⟨digital_signature, content_commitment, key_encipherment,
         data_encipherment, key_agreement, key_cert_sign, crl_sign,
         encipher_only, decipher_only⟩

/-- `KeyUsage.encipher_only` property (x509.py:300-307): fails unless
`key_agreement` is true, else returns the stored bit. -/
def KeyUsage.encipher_only (ku : KeyUsage) : Except X509Error Bool :=
  if !ku.key_agreement then
    .error (.valueError "encipher_only is undefined unless key_agreement is true")
  else
    .ok ku.encipher_only_raw

/-- `KeyUsage.decipher_only` property (x509.py:309-316): fails unless
`key_agreement` is true, else returns the stored bit. -/
def KeyUsage.decipher_only (ku : KeyUsage) : Except X509Error Bool :=
  if !ku.key_agreement then
    .error (.valueError "decipher_only is undefined unless key_agreement is true")
  else
    .ok ku.decipher_only_raw

/-- From `ExtendedKeyUsage` (x509.py:225-242): an ordered OID sequence. -/
structure ExtendedKeyUsage where
  usages : List ObjectIdentifier
deriving DecidableEq, Repr

/-- The closed union of extension values (spec section 3 / section 9): the
typed variants implemented in x509.py plus the opaque-bytes fallback the
backend leaves for OIDs it does not understand (`unrecognized`, carrying
the raw bytes as a list of byte values). -/
inductive ExtensionValue where
  | basicConstraints (bc : BasicConstraints)
  | keyUsage (ku : KeyUsage)
  | extendedKeyUsage (eku : ExtendedKeyUsage)
  | unrecognized (data : List Nat)
deriving DecidableEq, Repr

/-- Is this value the opaque-bytes fallback for an unrecognized OID? -/
def ExtensionValue.isUnrecognized : ExtensionValue → Bool
  | .unrecognized _ => true
  | _ => false

/-- The Python runtime values that can reach the dynamically-checked
arguments of `Extension.__init__`. -/
inductive PyVal where
  | oidV (o : ObjectIdentifier)
  | boolV (b : Bool)
  | strV (s : String)
  | intV (n : Int)
  | noneV
deriving DecidableEq, Repr

/-- From `Extension` (x509.py:202-218): the stored (oid, critical, value)
triple. -/
structure Extension where
  oid : ObjectIdentifier
  critical : Bool
  value : ExtensionValue
deriving DecidableEq, Repr

/-- `Extension.__init__` (x509.py:203-214): checks
`isinstance(oid, ObjectIdentifier)` first, then `isinstance(critical, bool)`,
then stores the three arguments. -/
def Extension.init (oid critical : PyVal) (value : ExtensionValue) :
    Except X509Error Extension :=
  match oid with
  | .oidV o =>
    match critical with
    | .boolV b => .ok ⟨o, b, value⟩
    | _ => .error (.typeError "critical must be a boolean value")
  | _ => .error (.typeError "oid argument must be an ObjectIdentifier instance.")

/-- From `Extensions` (x509.py:184-199): a wrapper around the accepted
extension list. -/
structure Extensions where
  extensions : List Extension
deriving DecidableEq, Repr

/-- The loop of `Extensions.get_extension_for_oid` (x509.py:188-193):
return the first extension whose OID equals the requested one, else raise
`ExtensionNotFound` carrying the requested OID. -/
def getExtensionLoop (oid : ObjectIdentifier) :
    List Extension → Except X509Error Extension
  | [] => .error (.extensionNotFound oid)
  | e :: rest => if e.oid.eq oid then .ok e else getExtensionLoop oid rest

/-- `Extensions.get_extension_for_oid` (x509.py:188-193). -/
def Extensions.get_extension_for_oid (exts : Extensions)
    (oid : ObjectIdentifier) : Except X509Error Extension :=
  getExtensionLoop oid exts.extensions

/-- A raw extension record as handed over by the decoding backend
(spec section 4.2): OID, critical flag, and a value that is either one of
the typed variants or the opaque fallback. -/
structure RawExtensionRecord where
  oid : ObjectIdentifier
  critical : Bool
  value : ExtensionValue
deriving DecidableEq, Repr

/-- Modelled from the spec: the loop of the extension-set builder
(spec section 4.2), whose code lives in the decoding backend and is not
under src/ (src/ holds only its exception declarations and its tests,
`test_duplicate_extension` / `test_unsupported_critical_extension` /
`test_unsupported_extension`). Per record, in order: (2) an OID already
seen fails the whole build with Duplicate-Extension carrying that OID —
`seen` collects the OID of every processed record, including silently
omitted ones, as the spec's testable property demands duplicate detection
regardless of critical flags; (3) an unrecognized value with the critical
flag set fails with Unsupported-Extension carrying the OID; (4) an
unrecognized non-critical value is silently omitted; (5) anything else is
accepted in order. -/
def buildExtensionsGo : List RawExtensionRecord → List ObjectIdentifier →
    List Extension → Except X509Error (List Extension)
  | [], _, acc => .ok acc
  | r :: rest, seen, acc =>
    if seen.any (fun o => o.eq r.oid) then
      .error (.duplicateExtension r.oid)
    else if r.value.isUnrecognized && r.critical then
      .error (.unsupportedExtension r.oid)
    else if r.value.isUnrecognized then
      buildExtensionsGo rest (r.oid :: seen) acc
    else
      buildExtensionsGo rest (r.oid :: seen) (acc ++ [⟨r.oid, r.critical, r.value⟩])

/-- Modelled from the spec: the extension-set builder entry point
(spec section 4.2), starting from an empty seen-set and empty accumulator
and wrapping the accepted records into an `Extensions` value. -/
def buildExtensions (records : List RawExtensionRecord) :
    Except X509Error Extensions :=
  (buildExtensionsGo records [] []).map Extensions.mk

/-- From `Version` (x509.py:57-59): the enumerated certificate versions. -/
inductive Version where
  | v1
  | v3
deriving DecidableEq, Repr

/-- The integer value of each enumeration member (x509.py:58-59):
`v1 = 0`, `v3 = 2`. -/
def Version.value : Version → Int
  | .v1 => 0
  | .v3 => 2

/-- Modelled from the spec: the certificate version decoding performed by
the decoding backend (spec section 4.5), not under src/: the raw parsed
integer maps onto the set with v1 = 0 and v3 = 2, and any other integer is
an Invalid-Version condition carrying the raw parsed integer. -/
def decodeVersion (raw : Int) : Except X509Error Version :=
  if raw = 0 then .ok .v1
  else if raw = 2 then .ok .v3
  else .error (.invalidVersion raw)

/-- The hash algorithm identifiers named by `_SIG_OIDS_TO_HASH`
(the `hashes.MD5()` … `hashes.SHA512()` objects of x509.py:349-363). -/
inductive HashAlgorithm where
  | MD5
  | SHA1
  | SHA224
  | SHA256
  | SHA384
  | SHA512
deriving DecidableEq, Repr

/-- `OID_RSA_WITH_MD5` (x509.py:335). -/
def OID_RSA_WITH_MD5 : ObjectIdentifier := ⟨"1.2.840.113549.1.1.4"⟩

/-- `OID_RSA_WITH_SHA1` (x509.py:336). -/
def OID_RSA_WITH_SHA1 : ObjectIdentifier := ⟨"1.2.840.113549.1.1.5"⟩

/-- `OID_RSA_WITH_SHA224` (x509.py:337). -/
def OID_RSA_WITH_SHA224 : ObjectIdentifier := ⟨"1.2.840.113549.1.1.14"⟩

/-- `OID_RSA_WITH_SHA256` (x509.py:338). -/
def OID_RSA_WITH_SHA256 : ObjectIdentifier := ⟨"1.2.840.113549.1.1.11"⟩

/-- `OID_RSA_WITH_SHA384` (x509.py:339). -/
def OID_RSA_WITH_SHA384 : ObjectIdentifier := ⟨"1.2.840.113549.1.1.12"⟩

/-- `OID_RSA_WITH_SHA512` (x509.py:340). -/
def OID_RSA_WITH_SHA512 : ObjectIdentifier := ⟨"1.2.840.113549.1.1.13"⟩

/-- `OID_ECDSA_WITH_SHA224` (x509.py:341). -/
def OID_ECDSA_WITH_SHA224 : ObjectIdentifier := ⟨"1.2.840.10045.4.3.1"⟩

/-- `OID_ECDSA_WITH_SHA256` (x509.py:342). -/
def OID_ECDSA_WITH_SHA256 : ObjectIdentifier := ⟨"1.2.840.10045.4.3.2"⟩

/-- `OID_ECDSA_WITH_SHA384` (x509.py:343). -/
def OID_ECDSA_WITH_SHA384 : ObjectIdentifier := ⟨"1.2.840.10045.4.3.3"⟩

/-- `OID_ECDSA_WITH_SHA512` (x509.py:344). -/
def OID_ECDSA_WITH_SHA512 : ObjectIdentifier := ⟨"1.2.840.10045.4.3.4"⟩

/-- `OID_DSA_WITH_SHA1` (x509.py:345). -/
def OID_DSA_WITH_SHA1 : ObjectIdentifier := ⟨"1.2.840.10040.4.3"⟩

/-- `OID_DSA_WITH_SHA224` (x509.py:346). -/
def OID_DSA_WITH_SHA224 : ObjectIdentifier := ⟨"2.16.840.1.101.3.4.3.1"⟩

/-- `OID_DSA_WITH_SHA256` (x509.py:347). -/
def OID_DSA_WITH_SHA256 : ObjectIdentifier := ⟨"2.16.840.1.101.3.4.3.2"⟩

/-- `OID_BASIC_CONSTRAINTS` (x509.py:181). -/
def OID_BASIC_CONSTRAINTS : ObjectIdentifier := ⟨"2.5.29.19"⟩

/-- `OID_KEY_USAGE` (x509.py:179). -/
def OID_KEY_USAGE : ObjectIdentifier := ⟨"2.5.29.15"⟩

/-- `_SIG_OIDS_TO_HASH` (x509.py:349-363): the fixed table from
signature-algorithm OID dotted strings to the hash algorithm they imply,
entry for entry as in the source. -/
def SIG_OIDS_TO_HASH : List (String × HashAlgorithm) :=
  [(OID_RSA_WITH_MD5.dotted_string, .MD5),
   (OID_RSA_WITH_SHA1.dotted_string, .SHA1),
   (OID_RSA_WITH_SHA224.dotted_string, .SHA224),
   (OID_RSA_WITH_SHA256.dotted_string, .SHA256),
   (OID_RSA_WITH_SHA384.dotted_string, .SHA384),
   (OID_RSA_WITH_SHA512.dotted_string, .SHA512),
   (OID_ECDSA_WITH_SHA224.dotted_string, .SHA224),
   (OID_ECDSA_WITH_SHA256.dotted_string, .SHA256),
   (OID_ECDSA_WITH_SHA384.dotted_string, .SHA384),
   (OID_ECDSA_WITH_SHA512.dotted_string, .SHA512),
   (OID_DSA_WITH_SHA1.dotted_string, .SHA1),
   (OID_DSA_WITH_SHA224.dotted_string, .SHA224),
   (OID_DSA_WITH_SHA256.dotted_string, .SHA256)]

/-- Modelled from the spec: `lookup_signature_hash` (spec section 4.1),
whose code lives in the decoding backend and is not under src/ (src/ holds
only the `_SIG_OIDS_TO_HASH` table it indexes): a hit in the fixed table
returns the hash identifier, a miss fails with the explicit
unsupported-signature-algorithm condition, never a default. -/
def lookup_signature_hash (oid : ObjectIdentifier) :
    Except X509Error HashAlgorithm :=
  match SIG_OIDS_TO_HASH.lookup oid.dotted_string with
  | some h => .ok h
  | none => .error .unsupportedSignatureAlgorithm

/-- A concrete raw-record sequence whose two records share OID 1.2.3.4 and
are both critical with an unrecognized (opaque) value — the concrete input
of the dual-critical-unrecognized corner of the builder. -/
def dupCriticalUnrecognizedRecords : List RawExtensionRecord :=
  [⟨⟨"1.2.3.4"⟩, true, .unrecognized [0]⟩,
   ⟨⟨"1.2.3.4"⟩, true, .unrecognized [0]⟩]

/-- A concrete raw-record sequence of two recognized-value basicConstraints
records sharing OID 2.5.29.19 with differing critical flags. -/
def dupBasicConstraintsRecords : List RawExtensionRecord :=
  [⟨⟨"2.5.29.19"⟩, true, .basicConstraints ⟨false, none⟩⟩,
   ⟨⟨"2.5.29.19"⟩, false, .basicConstraints ⟨true, none⟩⟩]

end X509

namespace X509

/-- C2: constructing `KeyUsage` with `key_agreement` false and either of
`encipher_only`/`decipher_only` true fails with the ValueError of
x509.py:276-280; with `key_agreement` true construction succeeds and the
two guarded accessors return exactly the constructed bits; with
`key_agreement` false any successfully constructed value fails at read
time on both accessors. -/
theorem keyUsage_encipher_decipher_contract
    (ds cc ke de kcs cs eo dOnly : Bool) :
    ((eo = true ∨ dOnly = true) →
      KeyUsage.init ds cc ke de false kcs cs eo dOnly =
        .error (.valueError
          "encipher_only and decipher_only can only be true when key_agreement is true")) ∧
    (∃ ku, KeyUsage.init ds cc ke de true kcs cs eo dOnly = .ok ku ∧
      ku.encipher_only = .ok eo ∧ ku.decipher_only = .ok dOnly) ∧
    (∀ ku, KeyUsage.init ds cc ke de false kcs cs eo dOnly = .ok ku →
      ku.encipher_only =
        .error (.valueError "encipher_only is undefined unless key_agreement is true") ∧
      ku.decipher_only =
        .error (.valueError "decipher_only is undefined unless key_agreement is true")) := by
  refine ⟨?_, ?_, ?_⟩
  · intro h
    rcases h with h | h <;> subst h <;> simp [KeyUsage.init]
  · refine ⟨⟨ds, cc, ke, de, true, kcs, cs, eo, dOnly⟩, ?_, ?_, ?_⟩
    · simp [KeyUsage.init]
    · simp [KeyUsage.encipher_only]
    · simp [KeyUsage.decipher_only]
  · intro ku h
    by_cases hc : (eo || dOnly) = true
    · simp [KeyUsage.init, hc] at h
    · simp [KeyUsage.init, hc] at h
      constructor
      · simp [KeyUsage.encipher_only, ← h]
      · simp [KeyUsage.decipher_only, ← h]

/-- Witness for C2 at concrete inputs: the failing construction with
`encipher_only` true and `key_agreement` false, the successful
`key_agreement`-true construction, and the read-time failure. -/
theorem keyUsage_encipher_decipher_contract_witness :
    KeyUsage.init false false false false false false false true false =
      .error (.valueError
        "encipher_only and decipher_only can only be true when key_agreement is true") ∧
    (∃ ku, KeyUsage.init false false false false true false false false true = .ok ku ∧
      ku.encipher_only = .ok false ∧ ku.decipher_only = .ok true) ∧
    (∀ ku, KeyUsage.init false false false false false false false false false = .ok ku →
      ku.encipher_only =
        .error (.valueError "encipher_only is undefined unless key_agreement is true") ∧
      ku.decipher_only =
        .error (.valueError "decipher_only is undefined unless key_agreement is true")) :=
  ⟨(keyUsage_encipher_decipher_contract false false false false false false true false).1
      (Or.inl rfl),
   (keyUsage_encipher_decipher_contract false false false false false false false true).2.1,
   (keyUsage_encipher_decipher_contract false false false false false false false false).2.2⟩

/-- C3: `BasicConstraints` with `ca` false and any non-None `path_length`
fails with the ValueError of x509.py:250-251; with `ca` true and
`path_length` 6 it succeeds preserving the value; with `ca` true and
`path_length` None it succeeds; any successfully constructed value with a
present `path_length` has `ca` true. -/
theorem basicConstraints_contract :
    (∀ n : Int, BasicConstraints.init false (some n) =
      .error (.valueError "path_length must be None when ca is False")) ∧
    BasicConstraints.init true (some 6) = .ok ⟨true, some 6⟩ ∧
    BasicConstraints.init true none = .ok ⟨true, none⟩ ∧
    (∀ (ca : Bool) (pl : Option Int) (bc : BasicConstraints),
      BasicConstraints.init ca pl = .ok bc →
      bc.path_length.isSome = true → bc.ca = true) := by
  refine ⟨fun n => rfl, rfl, rfl, ?_⟩
  intro ca pl bc h hsome
  cases ca
  · cases pl with
    | none =>
      simp [BasicConstraints.init] at h
      rw [← h] at hsome
      simp at hsome
    | some n =>
      simp [BasicConstraints.init] at h
  · cases pl with
    | none =>
      simp [BasicConstraints.init] at h
      subst h
      rfl
    | some n =>
      by_cases hneg : n < 0
      · simp [BasicConstraints.init, hneg] at h
      · simp [BasicConstraints.init, hneg] at h
        subst h
        rfl

/-- Witness for C3 at concrete inputs: the failing `ca`-false
construction at `path_length` 5 and the invariant read off the successful
`ca`-true construction at `path_length` 6. -/
theorem basicConstraints_contract_witness :
    BasicConstraints.init false (some 5) =
      .error (.valueError "path_length must be None when ca is False") ∧
    (BasicConstraints.mk true (some 6)).ca = true :=
  ⟨basicConstraints_contract.1 5,
   basicConstraints_contract.2.2.2 true (some 6) ⟨true, some 6⟩
     basicConstraints_contract.2.1 rfl⟩

/-- C4: `ObjectIdentifier` equality and hashing are structural on the
dotted string: values with equal strings are equal and hash identically,
values with differing strings are unequal. -/
theorem objectIdentifier_eq_hash_structural (a b : ObjectIdentifier) :
    (a.dotted_string = b.dotted_string →
      ObjectIdentifier.eq a b = true ∧ a.hashVal = b.hashVal) ∧
    (a.dotted_string ≠ b.dotted_string → ObjectIdentifier.eq a b = false) := by
  constructor
  · intro h
    constructor
    · simp [ObjectIdentifier.eq, h]
    · simp [ObjectIdentifier.hashVal, h]
  · intro h
    simp [ObjectIdentifier.eq, h]

/-- Witness for C4 at concrete strings: equal construction strings give
equality and identical hashes, differing strings give inequality. -/
theorem objectIdentifier_eq_hash_structural_witness :
    (ObjectIdentifier.eq ⟨"2.5.29.19"⟩ ⟨"2.5.29.19"⟩ = true ∧
      ObjectIdentifier.hashVal ⟨"2.5.29.19"⟩ =
        ObjectIdentifier.hashVal ⟨"2.5.29.19"⟩) ∧
    ObjectIdentifier.eq ⟨"2.5.29.19"⟩ ⟨"2.5.29.15"⟩ = false :=
  ⟨(objectIdentifier_eq_hash_structural ⟨"2.5.29.19"⟩ ⟨"2.5.29.19"⟩).1 rfl,
   (objectIdentifier_eq_hash_structural ⟨"2.5.29.19"⟩ ⟨"2.5.29.15"⟩).2 (by decide)⟩

/-- C5: `Name.get_attributes_for_oid` returns exactly the attributes whose
OID matches (membership characterization), preserves the original
sequence order (its result is a sublist of the attribute list), and
returns the empty list — it is a total function, never a failure — when
no attribute matches. -/
theorem name_get_attributes_for_oid_spec (n : Name) (oid : ObjectIdentifier) :
    (∀ a : NameAttribute,
      a ∈ n.get_attributes_for_oid oid ↔
        a ∈ n.attributes ∧ a.oid.eq oid = true) ∧
    (n.get_attributes_for_oid oid).Sublist n.attributes ∧
    ((∀ a ∈ n.attributes, a.oid.eq oid = false) →
      n.get_attributes_for_oid oid = []) := by
  refine ⟨?_, ?_, ?_⟩
  · intro a
    simp [Name.get_attributes_for_oid, List.mem_filter]
  · exact List.filter_sublist n.attributes
  · intro h
    unfold Name.get_attributes_for_oid
    rw [List.filter_eq_nil_iff]
    intro a ha
    simp [h a ha]

/-- Witness for C5 at a concrete one-attribute name and a non-matching
OID: the lookup returns the empty list. -/
theorem name_get_attributes_for_oid_spec_witness :
    Name.get_attributes_for_oid ⟨[⟨⟨"2.5.4.3"⟩, "cryptography.io"⟩]⟩ ⟨"2.5.4.6"⟩ = [] :=
  (name_get_attributes_for_oid_spec ⟨[⟨⟨"2.5.4.3"⟩, "cryptography.io"⟩]⟩ ⟨"2.5.4.6"⟩).2.2
    (by decide)

/-- C7: `Extension.__init__` fails eagerly with the TypeError of
x509.py:204-207 when the oid argument is not an `ObjectIdentifier` value,
fails with the TypeError of x509.py:209-210 when the critical argument is
not a boolean, and otherwise succeeds storing exactly the supplied oid,
critical flag and value. -/
theorem extension_init_contract :
    (∀ (v critical : PyVal) (value : ExtensionValue),
      (∀ o : ObjectIdentifier, v ≠ .oidV o) →
      Extension.init v critical value =
        .error (.typeError "oid argument must be an ObjectIdentifier instance.")) ∧
    (∀ (o : ObjectIdentifier) (v : PyVal) (value : ExtensionValue),
      (∀ b : Bool, v ≠ .boolV b) →
      Extension.init (.oidV o) v value =
        .error (.typeError "critical must be a boolean value")) ∧
    (∀ (o : ObjectIdentifier) (b : Bool) (value : ExtensionValue),
      Extension.init (.oidV o) (.boolV b) value = .ok ⟨o, b, value⟩ ∧
      (Extension.mk o b value).oid = o ∧
      (Extension.mk o b value).critical = b ∧
      (Extension.mk o b value).value = value) := by
  refine ⟨?_, ?_, ?_⟩
  · intro v critical value h
    cases v with
    | oidV o => exact absurd rfl (h o)
    | boolV b => rfl
    | strV s => rfl
    | intV n => rfl
    | noneV => rfl
  · intro o v value h
    cases v with
    | oidV o' => rfl
    | boolV b => exact absurd rfl (h b)
    | strV s => rfl
    | intV n => rfl
    | noneV => rfl
  · intro o b value
    exact ⟨rfl, rfl, rfl, rfl⟩

/-- Witness for C7 at concrete inputs mirroring the repository tests: a
string where the OID belongs fails, a string where the boolean belongs
fails, and a well-typed construction stores its arguments. -/
theorem extension_init_contract_witness :
    Extension.init (.strV "notanoid") (.boolV true)
        (.basicConstraints ⟨false, none⟩) =
      .error (.typeError "oid argument must be an ObjectIdentifier instance.") ∧
    Extension.init (.oidV ⟨"2.5.29.19"⟩) (.strV "notabool")
        (.basicConstraints ⟨false, none⟩) =
      .error (.typeError "critical must be a boolean value") ∧
    Extension.init (.oidV ⟨"2.5.29.19"⟩) (.boolV true)
        (.basicConstraints ⟨false, none⟩) =
      .ok ⟨⟨"2.5.29.19"⟩, true, .basicConstraints ⟨false, none⟩⟩ :=
  ⟨extension_init_contract.1 (.strV "notanoid") (.boolV true)
      (.basicConstraints ⟨false, none⟩) (fun o h => by cases h),
   extension_init_contract.2.1 ⟨"2.5.29.19"⟩ (.strV "notabool")
      (.basicConstraints ⟨false, none⟩) (fun b h => by cases h),
   (extension_init_contract.2.2 ⟨"2.5.29.19"⟩ true
      (.basicConstraints ⟨false, none⟩)).1⟩

/-- C9: the version mapping sends raw integer 0 to v1 and raw integer 2 to
v3 (matching the enumeration values of x509.py:58-59), and every other raw
integer yields an Invalid-Version condition carrying that raw integer. -/
theorem decodeVersion_spec :
    decodeVersion 0 = .ok .v1 ∧
    decodeVersion 2 = .ok .v3 ∧
    Version.value .v1 = 0 ∧
    Version.value .v3 = 2 ∧
    (∀ raw : Int, raw ≠ 0 → raw ≠ 2 →
      decodeVersion raw = .error (.invalidVersion raw)) :=
  ⟨rfl, rfl, rfl, rfl, fun raw h0 h2 => by simp [decodeVersion, h0, h2]⟩

/-- Witness for C9 at the concrete raw integer 1: decoding fails with
Invalid-Version carrying 1. -/
theorem decodeVersion_spec_witness :
    decodeVersion 1 = .error (.invalidVersion 1) :=
  decodeVersion_spec.2.2.2.2 1 (by decide) (by decide)

end X509

namespace X509

/-- Helper: the first-match loop of `get_extension_for_oid` returns the
unique element of the filter when the filter is a singleton. -/
theorem getExtensionLoop_of_filter_singleton (oid : ObjectIdentifier) :
    ∀ (l : List Extension) (e : Extension),
      l.filter (fun x => x.oid.eq oid) = [e] →
      getExtensionLoop oid l = .ok e := by
  intro l
  induction l with
  | nil =>
    intro e h
    simp at h
  | cons x rest ih =>
    intro e h
    simp only [List.filter_cons] at h
    by_cases hx : x.oid.eq oid = true
    · rw [if_pos hx, List.cons_eq_cons] at h
      obtain ⟨he, -⟩ := h
      subst he
      simp [getExtensionLoop, hx]
    · rw [if_neg hx] at h
      simp [getExtensionLoop, hx]
      exact ih e h

/-- C6: `get_extension_for_oid` on an empty `Extensions` set fails with
Extension-Not-Found carrying exactly the requested OID, and on a set whose
underlying sequence holds exactly one extension with that OID it returns
that extension; absence is the explicit error of x509.py:193, never an
empty result. -/
theorem extensions_get_extension_for_oid_spec (oid : ObjectIdentifier) :
    (Extensions.mk []).get_extension_for_oid oid =
      .error (.extensionNotFound oid) ∧
    (∀ (exts : Extensions) (e : Extension),
      exts.extensions.filter (fun x => x.oid.eq oid) = [e] →
      exts.get_extension_for_oid oid = .ok e) := by
  constructor
  · rfl
  · intro exts e h
    exact getExtensionLoop_of_filter_singleton oid exts.extensions e h

/-- Witness for C6 at concrete inputs: the empty set fails with
Extension-Not-Found naming 2.5.29.19, and a singleton set holding a
basicConstraints extension under that OID returns it. -/
theorem extensions_get_extension_for_oid_spec_witness :
    (Extensions.mk []).get_extension_for_oid ⟨"2.5.29.19"⟩ =
      .error (.extensionNotFound ⟨"2.5.29.19"⟩) ∧
    (Extensions.mk [⟨⟨"2.5.29.19"⟩, true, .basicConstraints ⟨false, none⟩⟩]).get_extension_for_oid
        ⟨"2.5.29.19"⟩ =
      .ok ⟨⟨"2.5.29.19"⟩, true, .basicConstraints ⟨false, none⟩⟩ :=
  ⟨(extensions_get_extension_for_oid_spec ⟨"2.5.29.19"⟩).1,
   (extensions_get_extension_for_oid_spec ⟨"2.5.29.19"⟩).2
     (Extensions.mk [⟨⟨"2.5.29.19"⟩, true, .basicConstraints ⟨false, none⟩⟩])
     ⟨⟨"2.5.29.19"⟩, true, .basicConstraints ⟨false, none⟩⟩ (by decide)⟩

/-- Helper: an association-list lookup misses when no pair carries the
requested key. -/
theorem lookup_none_of_no_key (s : String) :
    ∀ l : List (String × HashAlgorithm),
      (∀ p ∈ l, p.1 ≠ s) → l.lookup s = none := by
  intro l
  induction l with
  | nil => intro _; rfl
  | cons p rest ih =>
    intro h
    obtain ⟨k, v⟩ := p
    have hk : k ≠ s := h (k, v) (List.mem_cons_self _ _)
    have hbeq : (s == k) = false := by
      simp [beq_eq_false_iff_ne]
      exact fun hs => hk hs.symm
    have hstep : List.lookup s ((k, v) :: rest) = List.lookup s rest := by
      simp only [List.lookup, hbeq]
    rw [hstep]
    exact ih (fun q hq => h q (List.mem_cons_of_mem _ hq))

/-- C8: signature-hash lookup sends the RSA-with-SHA256 OID
1.2.840.113549.1.1.11 to the SHA-256 identifier, and for every OID whose
dotted string is not a key of the fixed `_SIG_OIDS_TO_HASH` table the
lookup fails with the Unsupported-Signature-Algorithm condition, never a
default hash. -/
theorem signature_hash_lookup_spec :
    lookup_signature_hash OID_RSA_WITH_SHA256 = .ok .SHA256 ∧
    (∀ oid : ObjectIdentifier,
      (∀ p ∈ SIG_OIDS_TO_HASH, p.1 ≠ oid.dotted_string) →
      lookup_signature_hash oid = .error .unsupportedSignatureAlgorithm) := by
  constructor
  · rfl
  · intro oid h
    unfold lookup_signature_hash
    rw [lookup_none_of_no_key oid.dotted_string SIG_OIDS_TO_HASH h]

/-- Witness for C8 at the concrete unknown OID 1.2.3: the lookup fails
with Unsupported-Signature-Algorithm. -/
theorem signature_hash_lookup_spec_witness :
    lookup_signature_hash ⟨"1.2.3"⟩ = .error .unsupportedSignatureAlgorithm :=
  signature_hash_lookup_spec.2 ⟨"1.2.3"⟩ (by decide)

/-- C10: on an `Extensions` value whose underlying sequence holds more
than one extension with the requested OID, `get_extension_for_oid`
returns the first match in iteration order without failing — the type
performs no duplicate detection at lookup time. -/
theorem get_extension_for_oid_first_match (oid : ObjectIdentifier)
    (l₁ : List Extension) (e : Extension) (l₂ : List Extension)
    (h₁ : ∀ x ∈ l₁, x.oid.eq oid = false) (h₂ : e.oid.eq oid = true)
    (_h₃ : ∃ x ∈ l₂, x.oid.eq oid = true) :
    (Extensions.mk (l₁ ++ e :: l₂)).get_extension_for_oid oid = .ok e := by
  unfold Extensions.get_extension_for_oid
  induction l₁ with
  | nil => simp [getExtensionLoop, h₂]
  | cons x rest ih =>
    have hx := h₁ x (List.mem_cons_self _ _)
    simp only [List.cons_append, getExtensionLoop, hx, if_false]
    exact ih (fun y hy => h₁ y (List.mem_cons_of_mem _ hy))

/-- Witness for C10 at a concrete two-entry duplicate sequence under OID
2.5.29.19: lookup returns the first of the two matching extensions. -/
theorem get_extension_for_oid_first_match_witness :
    (Extensions.mk [⟨⟨"2.5.29.19"⟩, true, .basicConstraints ⟨false, none⟩⟩,
                    ⟨⟨"2.5.29.19"⟩, false, .basicConstraints ⟨true, some 1⟩⟩]).get_extension_for_oid
        ⟨"2.5.29.19"⟩ =
      .ok ⟨⟨"2.5.29.19"⟩, true, .basicConstraints ⟨false, none⟩⟩ :=
  get_extension_for_oid_first_match ⟨"2.5.29.19"⟩ []
    ⟨⟨"2.5.29.19"⟩, true, .basicConstraints ⟨false, none⟩⟩
    [⟨⟨"2.5.29.19"⟩, false, .basicConstraints ⟨true, some 1⟩⟩]
    (by simp) (by decide) ⟨⟨⟨"2.5.29.19"⟩, false, .basicConstraints ⟨true, some 1⟩⟩, by simp, by decide⟩

end X509

namespace X509

/-- Helper: a successful run of the builder loop implies the remaining
records' OID strings are pairwise distinct and disjoint from the seen set. -/
theorem buildGo_ok_nodup :
    ∀ (rest : List RawExtensionRecord) (seen : List ObjectIdentifier)
      (acc out : List Extension),
      buildExtensionsGo rest seen acc = .ok out →
      (rest.map (fun r => r.oid.dotted_string)).Nodup ∧
      ∀ r ∈ rest, r.oid.dotted_string ∉ seen.map (fun o => o.dotted_string) := by
  intro rest
  induction rest with
  | nil =>
    intro seen acc out _
    simp
  | cons r rest ih =>
    intro seen acc out h
    unfold buildExtensionsGo at h
    by_cases hseen : seen.any (fun o => o.eq r.oid) = true
    · rw [if_pos hseen] at h
      exact absurd h (by simp)
    · rw [if_neg hseen] at h
      by_cases hcrit : (r.value.isUnrecognized && r.critical) = true
      · rw [if_pos hcrit] at h
        exact absurd h (by simp)
      · rw [if_neg hcrit] at h
        have hstep : ∃ acc', buildExtensionsGo rest (r.oid :: seen) acc' = .ok out := by
          by_cases hun : r.value.isUnrecognized = true
          · rw [if_pos hun] at h
            exact ⟨acc, h⟩
          · rw [if_neg hun] at h
            exact ⟨acc ++ [⟨r.oid, r.critical, r.value⟩], h⟩
        obtain ⟨acc', hgo⟩ := hstep
        obtain ⟨hnd, hnotin⟩ := ih (r.oid :: seen) acc' out hgo
        have hnotseen : ∀ o ∈ seen, o.dotted_string ≠ r.oid.dotted_string := by
          intro o ho heq
        
          exact hseen (List.any_eq_true.mpr ⟨o, ho, by simp [ObjectIdentifier.eq, heq]⟩)
        constructor
        · rw [List.map_cons, List.nodup_cons]
          refine ⟨?_, hnd⟩
          intro hmem
          obtain ⟨x, hx, hxe⟩ := List.mem_map.mp hmem
          have := hnotin x hx
          rw [List.map_cons] at this
          exact this (hxe ▸ List.mem_cons_self _ _)
        · intro x hx
          rcases List.mem_cons.mp hx with hx | hx
          · subst hx
            intro hm
            obtain ⟨o, ho, hoe⟩ := List.mem_map.mp hm
            exact hnotseen o ho hoe
          · intro hm
            have := hnotin x hx
            rw [List.map_cons] at this
            exact this (List.mem_cons_of_mem _ hm)

/-- Helper: when no record carries a critical unrecognized value, every
error produced by the builder loop is a Duplicate-Extension error whose
OID is matched at least twice across the seen set and the remaining
records together. -/
theorem buildGo_error_dup :
    ∀ (rest : List RawExtensionRecord) (seen : List ObjectIdentifier)
      (acc : List Extension) (e : X509Error),
      (∀ r ∈ rest, ¬(r.value.isUnrecognized = true ∧ r.critical = true)) →
      buildExtensionsGo rest seen acc = .error e →
      ∃ o, e = .duplicateExtension o ∧
        2 ≤ seen.countP (fun x => x.eq o) +
            rest.countP (fun r => r.oid.eq o) := by
  intro rest
  induction rest with
  | nil =>
    intro seen acc e _ h
    exact absurd h (by simp [buildExtensionsGo])
  | cons r rest ih =>
    intro seen acc e hrec h
    unfold buildExtensionsGo at h
    by_cases hseen : seen.any (fun o => o.eq r.oid) = true
    · rw [if_pos hseen] at h
      refine ⟨r.oid, (Except.error.inj h).symm, ?_⟩
      have h1 : 0 < seen.countP (fun x => x.eq r.oid) := by
        rw [List.any_eq_true] at hseen
        obtain ⟨o, ho, hoe⟩ := hseen
        exact List.countP_pos_iff.mpr ⟨o, ho, hoe⟩
      have h2 : 0 < (r :: rest).countP (fun x => x.oid.eq r.oid) := by
        refine List.countP_pos_iff.mpr ⟨r, List.mem_cons_self _ _, ?_⟩
        simp [ObjectIdentifier.eq]
      omega
    · rw [if_neg hseen] at h
      by_cases hcrit : (r.value.isUnrecognized && r.critical) = true
      · rw [Bool.and_eq_true] at hcrit
        exact absurd hcrit (hrec r (List.mem_cons_self _ _))
      · rw [if_neg hcrit] at h
        have hrest : ∀ x ∈ rest,
            ¬(x.value.isUnrecognized = true ∧ x.critical = true) :=
          fun x hx => hrec x (List.mem_cons_of_mem _ hx)
        have hstep : ∃ acc', buildExtensionsGo rest (r.oid :: seen) acc' = .error e := by
          by_cases hun : r.value.isUnrecognized = true
          · rw [if_pos hun] at h
            exact ⟨acc, h⟩
          · rw [if_neg hun] at h
            exact ⟨acc ++ [⟨r.oid, r.critical, r.value⟩], h⟩
        obtain ⟨acc', hgo⟩ := hstep
        obtain ⟨o, he, hcount⟩ := ih (r.oid :: seen) acc' e hrest hgo
        refine ⟨o, he, ?_⟩
        rw [List.countP_cons] at hcount
        rw [List.countP_cons]
        by_cases ho : r.oid.eq o = true <;> simp [ho] at hcount ⊢ <;> omega

/-- C1 (amended): building the extension set from a raw-record sequence in
which two records share the same OID never yields an `Extensions` value,
regardless of positions or critical flags; and the failure signals
Duplicate-Extension carrying an OID occurring at least twice whenever no
record is a critical unrecognized-value one (a critical unrecognized
record reached before the duplicate aborts the build with
Unsupported-Extension instead). -/
theorem buildExtensions_duplicate_oid (records : List RawExtensionRecord) :
    (¬ (records.map (fun r => r.oid.dotted_string)).Nodup →
      ∀ out, buildExtensions records ≠ .ok out) ∧
    ((∀ r ∈ records, ¬(r.value.isUnrecognized = true ∧ r.critical = true)) →
      ¬ (records.map (fun r => r.oid.dotted_string)).Nodup →
      ∃ o, buildExtensions records = .error (.duplicateExtension o) ∧
        2 ≤ records.countP (fun r => r.oid.eq o)) := by
  constructor
  · intro hdup out h
    unfold buildExtensions at h
    cases hgo : buildExtensionsGo records [] [] with
    | error e =>
      rw [hgo] at h
      exact absurd h (by simp [Except.map])
    | ok l => exact hdup (buildGo_ok_nodup records [] [] l hgo).1
  · intro hrec hdup
    cases hgo : buildExtensionsGo records [] [] with
    | ok l => exact absurd (buildGo_ok_nodup records [] [] l hgo).1 hdup
    | error e =>
      obtain ⟨o, he, hcount⟩ := buildGo_error_dup records [] [] e hrec hgo
      refine ⟨o, ?_, ?_⟩
      · unfold buildExtensions
        rw [hgo, he]
        rfl
      · simpa using hcount

/-- C1 counterexample to the claim as stated: the concrete two-record
sequence whose records share OID 1.2.3.4 and are both critical with
unrecognized values fails with Unsupported-Extension — not with
Duplicate-Extension — so duplicate sequences do not always signal
Duplicate-Extension. -/
theorem buildExtensions_duplicate_oid_cex :
    buildExtensions dupCriticalUnrecognizedRecords =
      .error (.unsupportedExtension ⟨"1.2.3.4"⟩) ∧
    (match buildExtensions dupCriticalUnrecognizedRecords with
     | .error err => err.isDuplicateExtension
     | .ok _ => true) = false :=
  ⟨rfl, rfl⟩

/-- Witness for the amended C1 at the concrete duplicated basicConstraints
sequence with differing critical flags: the build fails with
Duplicate-Extension on an OID occurring twice. -/
theorem buildExtensions_duplicate_oid_witness :
    ∃ o, buildExtensions dupBasicConstraintsRecords =
        .error (.duplicateExtension o) ∧
      2 ≤ dupBasicConstraintsRecords.countP (fun r => r.oid.eq o) :=
  (buildExtensions_duplicate_oid dupBasicConstraintsRecords).2
    (by decide) (by decide)

end X509
